import Mathlib

/-!
Verification of the dashbrr aggregation runtime against its specification.

The development shallowly embeds `backend/api/handlers/autobrr.go` (the
Autobrr stats / IRC handlers with their read-through cache logic) and the
rate-limiter wiring of `SetupRoutes` from the routes file.  Handlers are
modelled as pure functions of a `World` describing the outcome of each
external interaction (cache lookup, configuration lookup, adapter fetch,
cache write); alongside the HTTP response they return the ordered list of
side effects the Go code performs, so that claims about what is (not)
consulted or cached are expressible.
-/

namespace Dashbrr

/-- Modelled from the spec: the adapter's aggregate release-statistics
payload (`StatsPayload` in the adapter contract, `autobrr.AutobrrStats` in
the handler).  The spec treats the payload as an opaque serialized value;
only its Go zero value (`autobrr.AutobrrStats{}`, all fields zero) matters
to the claims, so it is modelled as a structure whose fields all default
to zero. -/
structure AutobrrStats where
  totalCount : Int := 0
  filteredCount : Int := 0
  filterRejectedCount : Int := 0
  pushApprovedCount : Int := 0
  pushRejectedCount : Int := 0
deriving Repr, DecidableEq

/-- Modelled from the spec: one entry of the IRC/connection status list
(`autobrr.IRCStatus`); the handler treats the list as an opaque payload,
with Go `nil` / `[]autobrr.IRCStatus{}` both modelled as `[]`. -/
structure IRCStatus where
  name : String := ""
  healthy : Bool := false
deriving Repr, DecidableEq

/-- Modelled from the spec: a `ServiceRecord` returned by the
configuration collaborator (`h.db.GetServiceByInstanceID`): instance
identifier, service URL and credentials. -/
structure ServiceConfig where
  instanceId : String := ""
  url : String := ""
  apiKey : String := ""
deriving Repr, DecidableEq

/-- A Go `error` value as the handler code distinguishes them: the two
`context` sentinel errors are compared by identity (`err ==
context.DeadlineExceeded`), every other error only by its message string
(`err.Error()`). -/
inductive GoErr where
  | deadlineExceeded
  | canceled
  | errorMsg (msg : String)
deriving Repr, DecidableEq

/-- `err.Error()`: the message string of an error value. -/
def GoErr.message : GoErr → String
  | .deadlineExceeded => "context deadline exceeded"
  | .canceled => "context canceled"
  | .errorMsg m => m

/-- `fmt.Errorf("service not configured")` as built in
`fetchAndCacheStats` / `fetchAndCacheIRC` (autobrr.go lines 151 and 182). -/
def serviceNotConfigured : GoErr := .errorMsg "service not configured"

/-- Outcome of `h.cache.Get(ctx, key, &value)`: either a nil error with the
destination populated (hit), or any non-nil error (cache miss and cache
backend failure are indistinguishable to the handler, which only tests
`err == nil`). -/
inductive CacheGetResult (α : Type) where
  | hit (value : α)
  | err (e : GoErr)

/-- One observable side effect of a handler invocation, in program order:
a cache `Get`, a `GetServiceByInstanceID` configuration lookup, an adapter
call (`service.GetReleaseStats` / `service.GetIRCStatus`), a cache `Set`
with its TTL (in nanoseconds, Go `time.Duration`), or the `go
h.refreshStatsCache` / `go h.refreshIRCCache` statement spawning a
background refresh. -/
inductive Effect where
  | cacheGet (key : String)
  | dbGetService (instanceId : String)
  | getReleaseStats (url apiKey : String)
  | getIRCStatus (url apiKey : String)
  | cacheSet (key : String) (ttl : Nat)
  | spawnRefreshStats (instanceId cacheKey : String)
  | spawnRefreshIRC (instanceId cacheKey : String)
deriving Repr, DecidableEq

/-- A JSON response body written through `c.JSON`: a stats payload, an IRC
status list, or a `gin.H{"error": msg}` object. -/
inductive Body where
  | stats (s : AutobrrStats)
  | ircList (l : List IRCStatus)
  | jsonError (msg : String)
deriving Repr, DecidableEq

/-- An HTTP response: status code plus JSON body. -/
structure Response where
  status : Nat
  body : Body
deriving Repr, DecidableEq

/-- The environment of one handler invocation, fixing the outcome of every
external interaction: the cache `Get` outcome, the `(record, error)` pair
returned by `GetServiceByInstanceID`, the `(payload, error)` pair returned
by the adapter for given URL/credentials, and the error (if any) returned
by the cache `Set`. -/
structure World (α : Type) where
  cacheGet : CacheGetResult α
  dbLookup : Option ServiceConfig × Option GoErr
  adapterFetch : String → String → α × Option GoErr
  cacheSetResult : Option GoErr

/-- Go `time.Second` in nanoseconds (`time.Duration` is an integer
nanosecond count). -/
def timeSecond : Nat := 1000000000

/-- Go `time.Minute` in nanoseconds. -/
def timeMinute : Nat := 60 * timeSecond

/-- `autobrrStatsCacheDuration = 10 * time.Second` (autobrr.go line 22). -/
def autobrrStatsCacheDuration : Nat := 10 * timeSecond

/-- `autobrrIRCCacheDuration = 5 * time.Second` (autobrr.go line 23). -/
def autobrrIRCCacheDuration : Nat := 5 * timeSecond

/-- `statsPrefix = "autobrr:stats:"` (autobrr.go line 24). -/
def statsPrefix : String := "autobrr:stats:"

/-- `ircPrefix = "autobrr:irc:"` (autobrr.go line 25). -/
def ircPrefix : String := "autobrr:irc:"

/-- `AutobrrHandler.fetchAndCacheStats` (autobrr.go lines 144-173): look up
the service record (propagating a lookup error), report `service not
configured` when there is no record or its URL is empty, otherwise call
`service.GetReleaseStats`; on adapter error return the zero payload with
the error; on success `Set` the cache with the stats TTL — a `Set` failure
is only logged — and return the payload with nil error. -/
def fetchAndCacheStats (w : World AutobrrStats) (instanceId cacheKey : String) :
    (AutobrrStats × Option GoErr) × List Effect :=
  match w.dbLookup with
  | (_, some e) => (({}, some e), [.dbGetService instanceId])
  | (none, none) => (({}, some serviceNotConfigured), [.dbGetService instanceId])
  | (some cfg, none) =>
    if cfg.url = "" then
      (({}, some serviceNotConfigured), [.dbGetService instanceId])
    else
      match w.adapterFetch cfg.url cfg.apiKey with
      | (_, some e) =>
        (({}, some e), [.dbGetService instanceId, .getReleaseStats cfg.url cfg.apiKey])
      | (stats, none) =>
        ((stats, none),
         [.dbGetService instanceId, .getReleaseStats cfg.url cfg.apiKey,
          .cacheSet cacheKey autobrrStatsCacheDuration])

/-- `AutobrrHandler.fetchAndCacheIRC` (autobrr.go lines 175-204): same
shape as `fetchAndCacheStats` with `service.GetIRCStatus`, `nil` (empty
list) as the error payload and the IRC TTL. -/
def fetchAndCacheIRC (w : World (List IRCStatus)) (instanceId cacheKey : String) :
    (List IRCStatus × Option GoErr) × List Effect :=
  match w.dbLookup with
  | (_, some e) => (([], some e), [.dbGetService instanceId])
  | (none, none) => (([], some serviceNotConfigured), [.dbGetService instanceId])
  | (some cfg, none) =>
    if cfg.url = "" then
      (([], some serviceNotConfigured), [.dbGetService instanceId])
    else
      match w.adapterFetch cfg.url cfg.apiKey with
      | (_, some e) =>
        (([], some e), [.dbGetService instanceId, .getIRCStatus cfg.url cfg.apiKey])
      | (status, none) =>
        ((status, none),
         [.dbGetService instanceId, .getIRCStatus cfg.url cfg.apiKey,
          .cacheSet cacheKey autobrrIRCCacheDuration])

/-- `AutobrrHandler.GetAutobrrReleaseStats` (autobrr.go lines 40-90):
reject an empty `instanceId` with 400 before touching anything; on a cache
hit answer 200 with the cached payload and spawn `go h.refreshStatsCache`;
on any cache `Get` error fall through to `fetchAndCacheStats`, mapping
`service not configured` to 200 with an empty payload, the `context`
sentinel errors to 504, any other error to 500 with the error message, and
success to 200 with the fetched payload. -/
def GetAutobrrReleaseStats (w : World AutobrrStats) (instanceId : String) :
    Response × List Effect :=
  if instanceId = "" then
    ({ status := 400, body := .jsonError "Instance ID is required" }, [])
  else
    let cacheKey := statsPrefix ++ instanceId
    match w.cacheGet with
    | .hit stats =>
      ({ status := 200, body := .stats stats },
       [.cacheGet cacheKey, .spawnRefreshStats instanceId cacheKey])
    | .err _ =>
      match fetchAndCacheStats w instanceId cacheKey with
      | ((stats, ferr), effs) =>
        match ferr with
        | some e =>
          if e.message = "service not configured" then
            ({ status := 200, body := .stats {} }, .cacheGet cacheKey :: effs)
          else
            ({ status := if e = .deadlineExceeded ∨ e = .canceled then 504 else 500,
               body := .jsonError e.message }, .cacheGet cacheKey :: effs)
        | none =>
          ({ status := 200, body := .stats stats }, .cacheGet cacheKey :: effs)

/-- `AutobrrHandler.GetAutobrrIRCStatus` (autobrr.go lines 92-142): same
protocol as `GetAutobrrReleaseStats` over the IRC status list, with
`[]autobrr.IRCStatus{}` as the empty payload and `go h.refreshIRCCache` as
the spawned refresh. -/
def GetAutobrrIRCStatus (w : World (List IRCStatus)) (instanceId : String) :
    Response × List Effect :=
  if instanceId = "" then
    ({ status := 400, body := .jsonError "Instance ID is required" }, [])
  else
    let cacheKey := ircPrefix ++ instanceId
    match w.cacheGet with
    | .hit status =>
      ({ status := 200, body := .ircList status },
       [.cacheGet cacheKey, .spawnRefreshIRC instanceId cacheKey])
    | .err _ =>
      match fetchAndCacheIRC w instanceId cacheKey with
      | ((status, ferr), effs) =>
        match ferr with
        | some e =>
          if e.message = "service not configured" then
            ({ status := 200, body := .ircList [] }, .cacheGet cacheKey :: effs)
          else
            ({ status := if e = .deadlineExceeded ∨ e = .canceled then 504 else 500,
               body := .jsonError e.message }, .cacheGet cacheKey :: effs)
        | none =>
          ({ status := 200, body := .ircList status }, .cacheGet cacheKey :: effs)

/-- A rate-limiter configuration as passed to
`middleware.NewRateLimiter(store, window, max, keyPrefix)`: the sliding
window length (nanoseconds), the maximum request count, and the cache-key
namespace of the limiter. -/
structure RateLimiterConfig where
  window : Nat
  maxRequests : Nat
  keyPrefix : String
deriving Repr, DecidableEq

/-- `apiRateLimiter` built in `SetupRoutes` (routes file line 294): 60
requests per minute under prefix `"api:"`. -/
def apiRateLimiter : RateLimiterConfig :=
  { window := timeMinute, maxRequests := 60, keyPrefix := "api:" }

/-- `healthRateLimiter` built in `SetupRoutes` (line 295): 30 health
checks per minute under prefix `"health:"`. -/
def healthRateLimiter : RateLimiterConfig :=
  { window := timeMinute, maxRequests := 30, keyPrefix := "health:" }

/-- `authRateLimiter` built in `SetupRoutes` (line 296): 30 auth requests
per minute under prefix `"auth:"`. -/
def authRateLimiter : RateLimiterConfig :=
  { window := timeMinute, maxRequests := 30, keyPrefix := "auth:" }

/-- `tailscaleRateLimiter` built in `SetupRoutes` (line 299): 20 requests
per 2 minutes under prefix `"tailscale:"`. -/
def tailscaleRateLimiter : RateLimiterConfig :=
  { window := 2 * timeMinute, maxRequests := 20, keyPrefix := "tailscale:" }

/-- The four rate limiters `SetupRoutes` constructs, in source order. -/
def setupRoutesRateLimiters : List RateLimiterConfig :=
  [apiRateLimiter, healthRateLimiter, authRateLimiter, tailscaleRateLimiter]

/-- A sample configured service record, for witnesses. -/
def sampleConfig : ServiceConfig :=
  { instanceId := "autobrr-1", url := "http://localhost:7474", apiKey := "key123" }

/-- A sample world for the stats handler whose cache misses and whose
fetch succeeds, for witnesses. -/
def wStatsOk : World AutobrrStats :=
  { cacheGet := .err (.errorMsg "cache miss"),
    dbLookup := (some sampleConfig, none),
    adapterFetch := fun _ _ => ({ totalCount := 3, pushApprovedCount := 2 }, none),
    cacheSetResult := none }

/-- A sample world for the IRC handler whose cache misses and whose fetch
succeeds, for witnesses. -/
def wIRCOk : World (List IRCStatus) :=
  { cacheGet := .err (.errorMsg "cache miss"),
    dbLookup := (some sampleConfig, none),
    adapterFetch := fun _ _ => ([{ name := "net", healthy := true }], none),
    cacheSetResult := none }

/-- A sample unconfigured world for the stats handler: cache miss, no
service record on file. -/
def wStatsNoCfg : World AutobrrStats :=
  { cacheGet := .err (.errorMsg "cache miss"),
    dbLookup := (none, none),
    adapterFetch := fun _ _ => ({}, none),
    cacheSetResult := none }

/-- A sample unconfigured world for the IRC handler: cache miss, record
present but with an empty URL. -/
def wIRCNoCfg : World (List IRCStatus) :=
  { cacheGet := .err (.errorMsg "cache miss"),
    dbLookup := (some { instanceId := "autobrr-1" }, none),
    adapterFetch := fun _ _ => ([], none),
    cacheSetResult := none }

/-- A sample world for the stats handler whose fetch times out. -/
def wStatsTimeout : World AutobrrStats :=
  { cacheGet := .err (.errorMsg "cache miss"),
    dbLookup := (some sampleConfig, none),
    adapterFetch := fun _ _ => ({}, some .deadlineExceeded),
    cacheSetResult := none }

/-- A sample world for the IRC handler whose fetch fails with an ordinary
upstream error. -/
def wIRCFail : World (List IRCStatus) :=
  { cacheGet := .err (.errorMsg "cache miss"),
    dbLookup := (some sampleConfig, none),
    adapterFetch := fun _ _ => ([], some (.errorMsg "connection refused")),
    cacheSetResult := none }

/-- `wStatsOk` with a failing cache `Set`, for witnesses. -/
def wStatsSetFail : World AutobrrStats :=
  { wStatsOk with cacheSetResult := some (.errorMsg "redis down") }

/-- `wIRCOk` with a failing cache `Set`, for witnesses. -/
def wIRCSetFail : World (List IRCStatus) :=
  { wIRCOk with cacheSetResult := some (.errorMsg "redis down") }

/-! ## Helper lemmas -/

/-- When `fetchAndCacheStats` returns a non-nil error, the payload it
returns is the zero `AutobrrStats` and its effect trace contains no cache
`Set`. -/
theorem fetchStats_error_shape (w : World AutobrrStats) (id key : String) (e : GoErr)
    (h : (fetchAndCacheStats w id key).1.2 = some e) :
    (fetchAndCacheStats w id key).1.1 = ({} : AutobrrStats) ∧
    ∀ k t, Effect.cacheSet k t ∉ (fetchAndCacheStats w id key).2 := by
  rcases hw : w.dbLookup with ⟨cfg, dbe⟩
  rcases dbe with _ | de
  · rcases cfg with _ | c
    · simp [fetchAndCacheStats, hw]
    · by_cases hu : c.url = ""
      · simp [fetchAndCacheStats, hw, hu]
      · rcases hf : w.adapterFetch c.url c.apiKey with ⟨v, fe⟩
        rcases fe with _ | fe2
        · simp [fetchAndCacheStats, hw, hu, hf] at h
        · simp [fetchAndCacheStats, hw, hu, hf]
  · simp [fetchAndCacheStats, hw]

/-- When `fetchAndCacheIRC` returns a non-nil error, the payload it
returns is the nil list and its effect trace contains no cache `Set`. -/
theorem fetchIRC_error_shape (w : World (List IRCStatus)) (id key : String) (e : GoErr)
    (h : (fetchAndCacheIRC w id key).1.2 = some e) :
    (fetchAndCacheIRC w id key).1.1 = ([] : List IRCStatus) ∧
    ∀ k t, Effect.cacheSet k t ∉ (fetchAndCacheIRC w id key).2 := by
  rcases hw : w.dbLookup with ⟨cfg, dbe⟩
  rcases dbe with _ | de
  · rcases cfg with _ | c
    · simp [fetchAndCacheIRC, hw]
    · by_cases hu : c.url = ""
      · simp [fetchAndCacheIRC, hw, hu]
      · rcases hf : w.adapterFetch c.url c.apiKey with ⟨v, fe⟩
        rcases fe with _ | fe2
        · simp [fetchAndCacheIRC, hw, hu, hf] at h
        · simp [fetchAndCacheIRC, hw, hu, hf]
  · simp [fetchAndCacheIRC, hw]

/-- Every invocation of `fetchAndCacheStats` consults the configuration
store for the given instance. -/
theorem fetchStats_consults_db (w : World AutobrrStats) (id key : String) :
    Effect.dbGetService id ∈ (fetchAndCacheStats w id key).2 := by
  rcases hw : w.dbLookup with ⟨cfg, dbe⟩
  rcases dbe with _ | de
  · rcases cfg with _ | c
    · simp [fetchAndCacheStats, hw]
    · by_cases hu : c.url = ""
      · simp [fetchAndCacheStats, hw, hu]
      · rcases hf : w.adapterFetch c.url c.apiKey with ⟨v, fe⟩
        rcases fe with _ | fe2 <;> simp [fetchAndCacheStats, hw, hu, hf]
  · simp [fetchAndCacheStats, hw]

/-- Every invocation of `fetchAndCacheIRC` consults the configuration
store for the given instance. -/
theorem fetchIRC_consults_db (w : World (List IRCStatus)) (id key : String) :
    Effect.dbGetService id ∈ (fetchAndCacheIRC w id key).2 := by
  rcases hw : w.dbLookup with ⟨cfg, dbe⟩
  rcases dbe with _ | de
  · rcases cfg with _ | c
    · simp [fetchAndCacheIRC, hw]
    · by_cases hu : c.url = ""
      · simp [fetchAndCacheIRC, hw, hu]
      · rcases hf : w.adapterFetch c.url c.apiKey with ⟨v, fe⟩
        rcases fe with _ | fe2 <;> simp [fetchAndCacheIRC, hw, hu, hf]
  · simp [fetchAndCacheIRC, hw]

/-- On any cache `Get` error the stats handler's effect trace is the cache
lookup followed by the effects of the synchronous fetch. -/
theorem GetStats_miss_effects (w : World AutobrrStats) (id : String) (e : GoErr)
    (hid : id ≠ "") (hc : w.cacheGet = .err e) :
    (GetAutobrrReleaseStats w id).2 =
      Effect.cacheGet (statsPrefix ++ id) ::
        (fetchAndCacheStats w id (statsPrefix ++ id)).2 := by
  rcases hr : fetchAndCacheStats w id (statsPrefix ++ id) with ⟨⟨st, ferr⟩, effs⟩
  rcases ferr with _ | e2
  · simp [GetAutobrrReleaseStats, hid, hc, hr]
  · by_cases hm : e2.message = "service not configured" <;>
      simp [GetAutobrrReleaseStats, hid, hc, hr, hm]

/-- On any cache `Get` error the IRC handler's effect trace is the cache
lookup followed by the effects of the synchronous fetch. -/
theorem GetIRC_miss_effects (w : World (List IRCStatus)) (id : String) (e : GoErr)
    (hid : id ≠ "") (hc : w.cacheGet = .err e) :
    (GetAutobrrIRCStatus w id).2 =
      Effect.cacheGet (ircPrefix ++ id) ::
        (fetchAndCacheIRC w id (ircPrefix ++ id)).2 := by
  rcases hr : fetchAndCacheIRC w id (ircPrefix ++ id) with ⟨⟨st, ferr⟩, effs⟩
  rcases ferr with _ | e2
  · simp [GetAutobrrIRCStatus, hid, hc, hr]
  · by_cases hm : e2.message = "service not configured" <;>
      simp [GetAutobrrIRCStatus, hid, hc, hr, hm]

/-- Appending distinct suffixes to one prefix yields distinct strings. -/
theorem append_ne_of_ne (p : String) {a b : String} (h : a ≠ b) :
    p ++ a ≠ p ++ b := by
  intro he
  apply h
  have hd : p.data ++ a.data = p.data ++ b.data := congrArg String.data he
  have h2 : a.data = b.data := List.append_cancel_left hd
  cases a
  cases b
  exact congrArg String.mk h2

/-! ## Claim theorems -/

/-- Claim C9: for every request whose `instanceId` query parameter is
absent or empty (Go's `c.Query` returns `""` in both cases), both
`GetAutobrrReleaseStats` and `GetAutobrrIRCStatus` respond with status 400
and body `{"error": "Instance ID is required"}`, and the effect trace is
empty — neither the cache store nor the configuration store nor any
service adapter is consulted. -/
theorem missing_instance_id_rejected_400 :
    (∀ w : World AutobrrStats, GetAutobrrReleaseStats w "" =
      ({ status := 400, body := .jsonError "Instance ID is required" }, [])) ∧
    (∀ w : World (List IRCStatus), GetAutobrrIRCStatus w "" =
      ({ status := 400, body := .jsonError "Instance ID is required" }, [])) :=
  ⟨fun _ => rfl, fun _ => rfl⟩

/-- Claim C3 counterexample: the handler schedules a background refresh on
every cache hit — the `go h.refreshStatsCache` statement at autobrr.go
line 61 is unconditional and the code consults no entry age, timestamp or
freshness threshold.  In particular a hit on a brand-new entry (one not
older than any freshness threshold) still triggers a refresh, refuting
"a hit on an entry not older than the freshness threshold triggers no
refresh". -/
theorem cache_hit_always_refreshes_cex :
    (GetAutobrrReleaseStats
      { cacheGet := .hit {}, dbLookup := (some sampleConfig, none),
        adapterFetch := fun _ _ => ({}, none), cacheSetResult := none }
      "autobrr-1").2 =
      [Effect.cacheGet "autobrr:stats:autobrr-1",
       Effect.spawnRefreshStats "autobrr-1" "autobrr:stats:autobrr-1"] := by
  decide

/-- Claim C3 (amended): on every cache hit the handler responds
immediately with the cached payload and unconditionally spawns a
non-blocking background refresh of the entry; the code has no freshness
threshold, so the refresh is scheduled regardless of the entry's age. -/
theorem cache_hit_serves_cached_and_refreshes
    (ws : World AutobrrStats) (wi : World (List IRCStatus)) (id : String)
    (v : AutobrrStats) (l : List IRCStatus)
    (hid : id ≠ "")
    (hcs : ws.cacheGet = .hit v) (hci : wi.cacheGet = .hit l) :
    GetAutobrrReleaseStats ws id =
      ({ status := 200, body := .stats v },
       [.cacheGet (statsPrefix ++ id), .spawnRefreshStats id (statsPrefix ++ id)]) ∧
    GetAutobrrIRCStatus wi id =
      ({ status := 200, body := .ircList l },
       [.cacheGet (ircPrefix ++ id), .spawnRefreshIRC id (ircPrefix ++ id)]) := by
  constructor
  · simp [GetAutobrrReleaseStats, hid, hcs]
  · simp [GetAutobrrIRCStatus, hid, hci]

/-- Claim C3 (amended) witness at a concrete hit. -/
theorem cache_hit_serves_cached_and_refreshes_witness :
    GetAutobrrReleaseStats
        { cacheGet := .hit { totalCount := 7 }, dbLookup := (some sampleConfig, none),
          adapterFetch := fun _ _ => ({}, none), cacheSetResult := none }
        "autobrr-1" =
      ({ status := 200, body := .stats { totalCount := 7 } },
       [.cacheGet (statsPrefix ++ "autobrr-1"),
        .spawnRefreshStats "autobrr-1" (statsPrefix ++ "autobrr-1")]) ∧
    GetAutobrrIRCStatus
        { cacheGet := .hit [{ name := "net", healthy := true }],
          dbLookup := (some sampleConfig, none),
          adapterFetch := fun _ _ => ([], none), cacheSetResult := none }
        "autobrr-1" =
      ({ status := 200, body := .ircList [{ name := "net", healthy := true }] },
       [.cacheGet (ircPrefix ++ "autobrr-1"),
        .spawnRefreshIRC "autobrr-1" (ircPrefix ++ "autobrr-1")]) :=
  cache_hit_serves_cached_and_refreshes _ _ "autobrr-1"
    { totalCount := 7 } [{ name := "net", healthy := true }]
    (by decide) rfl rfl

/-- Claim C6: the stats cache key is `"autobrr:stats:"` concatenated with
the instance identifier and the IRC cache key is `"autobrr:irc:"`
concatenated with it; a stats key never equals an IRC key, and keys for
distinct identifiers within one category are distinct. -/
theorem cache_key_namespacing (a b : String) :
    statsPrefix = "autobrr:stats:" ∧ ircPrefix = "autobrr:irc:" ∧
    statsPrefix ++ a ≠ ircPrefix ++ b ∧
    (a ≠ b → statsPrefix ++ a ≠ statsPrefix ++ b ∧ ircPrefix ++ a ≠ ircPrefix ++ b) := by
  refine ⟨rfl, rfl, ?_, fun h => ⟨append_ne_of_ne _ h, append_ne_of_ne _ h⟩⟩
  intro h
  have hd : statsPrefix.data ++ a.data = ircPrefix.data ++ b.data :=
    congrArg String.data h
  have ht := congrArg (List.take 12) hd
  rw [List.take_append_of_le_length (by decide),
    List.take_append_of_le_length (by decide)] at ht
  exact absurd ht (by decide)

/-- Claim C6 witness at concrete identifiers. -/
theorem cache_key_namespacing_witness :
    statsPrefix ++ "a" ≠ ircPrefix ++ "a" ∧
    statsPrefix ++ "a" ≠ statsPrefix ++ "b" ∧ ircPrefix ++ "a" ≠ ircPrefix ++ "b" :=
  ⟨(cache_key_namespacing "a" "a").2.2.1,
   ((cache_key_namespacing "a" "b").2.2.2 (by decide)).1,
   ((cache_key_namespacing "a" "b").2.2.2 (by decide)).2⟩

/-- Claim C1: for every stats or IRC request that reaches the
configuration lookup (cache miss) and whose instance has no configured
service record — no record found, or a record with an empty URL — the
handler responds with status 200 and the empty/zero-value payload (empty
`AutobrrStats`, empty IRC status list), never with an error response. -/
theorem unconfigured_service_returns_empty_200
    (ws : World AutobrrStats) (wi : World (List IRCStatus)) (id : String)
    (es ei : GoErr)
    (hid : id ≠ "")
    (hcs : ws.cacheGet = .err es) (hci : wi.cacheGet = .err ei)
    (hdbs : ws.dbLookup = (none, none) ∨
      ∃ c, ws.dbLookup = (some c, none) ∧ c.url = "")
    (hdbi : wi.dbLookup = (none, none) ∨
      ∃ c, wi.dbLookup = (some c, none) ∧ c.url = "") :
    (GetAutobrrReleaseStats ws id).1 = { status := 200, body := .stats {} } ∧
    (GetAutobrrIRCStatus wi id).1 = { status := 200, body := .ircList [] } := by
  constructor
  · rcases hdbs with h | ⟨c, h, hu⟩
    · simp [GetAutobrrReleaseStats, fetchAndCacheStats, hid, hcs, h,
        serviceNotConfigured, GoErr.message]
    · simp [GetAutobrrReleaseStats, fetchAndCacheStats, hid, hcs, h, hu,
        serviceNotConfigured, GoErr.message]
  · rcases hdbi with h | ⟨c, h, hu⟩
    · simp [GetAutobrrIRCStatus, fetchAndCacheIRC, hid, hci, h,
        serviceNotConfigured, GoErr.message]
    · simp [GetAutobrrIRCStatus, fetchAndCacheIRC, hid, hci, h, hu,
        serviceNotConfigured, GoErr.message]

/-- Claim C1 witness: a missing record (stats) and an empty-URL record
(IRC) both yield 200 with the empty payload. -/
theorem unconfigured_service_returns_empty_200_witness :
    (GetAutobrrReleaseStats wStatsNoCfg "autobrr-1").1 =
      { status := 200, body := .stats {} } ∧
    (GetAutobrrIRCStatus wIRCNoCfg "autobrr-1").1 =
      { status := 200, body := .ircList [] } :=
  unconfigured_service_returns_empty_200 wStatsNoCfg wIRCNoCfg "autobrr-1"
    (.errorMsg "cache miss") (.errorMsg "cache miss")
    (by decide) rfl rfl (Or.inl rfl)
    (Or.inr ⟨{ instanceId := "autobrr-1" }, rfl, rfl⟩)

/-- Claim C2: on a cache miss where the synchronous fetch fails with an
error other than `service not configured`, the handler responds 504 when
the error is the deadline-exceeded or cancellation sentinel, and 500 with
a JSON body `{"error": <message>}` carrying the error's message for every
other failure (both status classes carry the message body, as the code
writes `gin.H{"error": err.Error()}` in both). -/
theorem fetch_failure_maps_504_or_500
    (ws : World AutobrrStats) (wi : World (List IRCStatus)) (id : String)
    (es ei e f : GoErr)
    (hid : id ≠ "")
    (hcs : ws.cacheGet = .err es) (hci : wi.cacheGet = .err ei)
    (hfs : (fetchAndCacheStats ws id (statsPrefix ++ id)).1.2 = some e)
    (hes : e.message ≠ "service not configured")
    (hfi : (fetchAndCacheIRC wi id (ircPrefix ++ id)).1.2 = some f)
    (hei : f.message ≠ "service not configured") :
    (GetAutobrrReleaseStats ws id).1 =
      { status := if e = .deadlineExceeded ∨ e = .canceled then 504 else 500,
        body := .jsonError e.message } ∧
    (GetAutobrrIRCStatus wi id).1 =
      { status := if f = .deadlineExceeded ∨ f = .canceled then 504 else 500,
        body := .jsonError f.message } := by
  constructor
  · rcases hr : fetchAndCacheStats ws id (statsPrefix ++ id) with ⟨⟨st, ferr⟩, effs⟩
    rw [hr] at hfs
    simp only at hfs
    subst hfs
    simp [GetAutobrrReleaseStats, hid, hcs, hr, hes]
  · rcases hr : fetchAndCacheIRC wi id (ircPrefix ++ id) with ⟨⟨st, ferr⟩, effs⟩
    rw [hr] at hfi
    simp only at hfi
    subst hfi
    simp [GetAutobrrIRCStatus, hid, hci, hr, hei]

/-- Claim C2 witness: a deadline-exceeded stats fetch yields 504 and an
ordinary IRC fetch failure yields 500 with the error message. -/
theorem fetch_failure_maps_504_or_500_witness :
    (GetAutobrrReleaseStats wStatsTimeout "autobrr-1").1 =
      { status := 504, body := .jsonError "context deadline exceeded" } ∧
    (GetAutobrrIRCStatus wIRCFail "autobrr-1").1 =
      { status := 500, body := .jsonError "connection refused" } :=
  fetch_failure_maps_504_or_500 wStatsTimeout wIRCFail "autobrr-1"
    (.errorMsg "cache miss") (.errorMsg "cache miss")
    .deadlineExceeded (.errorMsg "connection refused")
    (by decide) rfl rfl (by decide) (by decide) (by decide) (by decide)

/-- Claim C7: `SetupRoutes` builds four rate limiters with pairwise
distinct key prefixes `"api:"`, `"health:"`, `"auth:"`, `"tailscale:"`
and independent window/count configurations; the tailscale limiter has a
strictly longer window (2 minutes vs 1 minute) and a strictly lower
maximum request count (20 vs 60) than the general API limiter. -/
theorem setupRoutes_rate_limiter_configs :
    apiRateLimiter.keyPrefix = "api:" ∧
    healthRateLimiter.keyPrefix = "health:" ∧
    authRateLimiter.keyPrefix = "auth:" ∧
    tailscaleRateLimiter.keyPrefix = "tailscale:" ∧
    (setupRoutesRateLimiters.map RateLimiterConfig.keyPrefix).Nodup ∧
    apiRateLimiter.window = timeMinute ∧
    tailscaleRateLimiter.window = 2 * timeMinute ∧
    apiRateLimiter.window < tailscaleRateLimiter.window ∧
    apiRateLimiter.maxRequests = 60 ∧
    tailscaleRateLimiter.maxRequests = 20 ∧
    tailscaleRateLimiter.maxRequests < apiRateLimiter.maxRequests := by
  decide

/-- Claim C8: both cache TTLs are positive second-scale durations; the IRC
TTL (5 s) is strictly shorter than the stats TTL (10 s); and every cache
`Set` performed by `fetchAndCacheStats` uses the stats TTL on the given
key while every `Set` performed by `fetchAndCacheIRC` uses the IRC TTL. -/
theorem cache_ttl_ordering :
    autobrrStatsCacheDuration = 10 * timeSecond ∧
    autobrrIRCCacheDuration = 5 * timeSecond ∧
    0 < autobrrIRCCacheDuration ∧
    autobrrIRCCacheDuration < autobrrStatsCacheDuration ∧
    (∀ (w : World AutobrrStats) (id key k : String) (t : Nat),
      Effect.cacheSet k t ∈ (fetchAndCacheStats w id key).2 →
        k = key ∧ t = autobrrStatsCacheDuration) ∧
    (∀ (w : World (List IRCStatus)) (id key k : String) (t : Nat),
      Effect.cacheSet k t ∈ (fetchAndCacheIRC w id key).2 →
        k = key ∧ t = autobrrIRCCacheDuration) := by
  refine ⟨rfl, rfl, by decide, by decide, ?_, ?_⟩
  · intro w id key k t hmem
    rcases hw : w.dbLookup with ⟨cfg, dbe⟩
    rcases dbe with _ | de
    · rcases cfg with _ | c
      · simp [fetchAndCacheStats, hw] at hmem
      · by_cases hu : c.url = ""
        · simp [fetchAndCacheStats, hw, hu] at hmem
        · rcases hf : w.adapterFetch c.url c.apiKey with ⟨v, fe⟩
          rcases fe with _ | fe2 <;>
            simp [fetchAndCacheStats, hw, hu, hf] at hmem
          exact ⟨hmem.1, hmem.2⟩
    · simp [fetchAndCacheStats, hw] at hmem
  · intro w id key k t hmem
    rcases hw : w.dbLookup with ⟨cfg, dbe⟩
    rcases dbe with _ | de
    · rcases cfg with _ | c
      · simp [fetchAndCacheIRC, hw] at hmem
      · by_cases hu : c.url = ""
        · simp [fetchAndCacheIRC, hw, hu] at hmem
        · rcases hf : w.adapterFetch c.url c.apiKey with ⟨v, fe⟩
          rcases fe with _ | fe2 <;>
            simp [fetchAndCacheIRC, hw, hu, hf] at hmem
          exact ⟨hmem.1, hmem.2⟩
    · simp [fetchAndCacheIRC, hw] at hmem

/-- Claim C8 witness: successful fetches cache with the respective TTLs. -/
theorem cache_ttl_ordering_witness :
    (("autobrr:stats:autobrr-1" : String) = "autobrr:stats:autobrr-1" ∧
      autobrrStatsCacheDuration = autobrrStatsCacheDuration) ∧
    (("autobrr:irc:autobrr-1" : String) = "autobrr:irc:autobrr-1" ∧
      autobrrIRCCacheDuration = autobrrIRCCacheDuration) :=
  ⟨cache_ttl_ordering.2.2.2.2.1 wStatsOk "autobrr-1" "autobrr:stats:autobrr-1"
      "autobrr:stats:autobrr-1" autobrrStatsCacheDuration (by decide),
   cache_ttl_ordering.2.2.2.2.2 wIRCOk "autobrr-1" "autobrr:irc:autobrr-1"
      "autobrr:irc:autobrr-1" autobrrIRCCacheDuration (by decide)⟩

/-- Claim C5: error results are never cached — whenever
`fetchAndCacheStats` or `fetchAndCacheIRC` returns a non-nil error
(configuration lookup failure, unconfigured service, or adapter fetch
failure), its effect trace contains no cache `Set`, so the failed
operation leaves the cache unchanged. -/
theorem error_results_never_cached
    (ws : World AutobrrStats) (wi : World (List IRCStatus))
    (ids idi keys keyi : String) (e f : GoErr)
    (hs : (fetchAndCacheStats ws ids keys).1.2 = some e)
    (hi : (fetchAndCacheIRC wi idi keyi).1.2 = some f) :
    (∀ k t, Effect.cacheSet k t ∉ (fetchAndCacheStats ws ids keys).2) ∧
    (∀ k t, Effect.cacheSet k t ∉ (fetchAndCacheIRC wi idi keyi).2) :=
  ⟨(fetchStats_error_shape ws ids keys e hs).2,
   (fetchIRC_error_shape wi idi keyi f hi).2⟩

/-- Claim C5 witness: a timed-out stats fetch and a failed IRC fetch
perform no `Set` on their cache keys. -/
theorem error_results_never_cached_witness :
    Effect.cacheSet "autobrr:stats:autobrr-1" autobrrStatsCacheDuration ∉
      (fetchAndCacheStats wStatsTimeout "autobrr-1" "autobrr:stats:autobrr-1").2 ∧
    Effect.cacheSet "autobrr:irc:autobrr-1" autobrrIRCCacheDuration ∉
      (fetchAndCacheIRC wIRCFail "autobrr-1" "autobrr:irc:autobrr-1").2 :=
  ⟨(error_results_never_cached wStatsTimeout wIRCFail "autobrr-1" "autobrr-1"
      "autobrr:stats:autobrr-1" "autobrr:irc:autobrr-1"
      .deadlineExceeded (.errorMsg "connection refused")
      (by decide) (by decide)).1 "autobrr:stats:autobrr-1" autobrrStatsCacheDuration,
   (error_results_never_cached wStatsTimeout wIRCFail "autobrr-1" "autobrr-1"
      "autobrr:stats:autobrr-1" "autobrr:irc:autobrr-1"
      .deadlineExceeded (.errorMsg "connection refused")
      (by decide) (by decide)).2 "autobrr:irc:autobrr-1" autobrrIRCCacheDuration⟩

/-- Claim C10: whenever `fetchAndCacheStats` returns a non-nil error its
payload result is the zero `AutobrrStats`, and whenever `fetchAndCacheIRC`
returns a non-nil error its payload result is the nil list, so callers
never observe a partially populated payload together with an error. -/
theorem error_returns_zero_payload
    (ws : World AutobrrStats) (wi : World (List IRCStatus))
    (ids idi keys keyi : String) (e f : GoErr)
    (hs : (fetchAndCacheStats ws ids keys).1.2 = some e)
    (hi : (fetchAndCacheIRC wi idi keyi).1.2 = some f) :
    (fetchAndCacheStats ws ids keys).1.1 = ({} : AutobrrStats) ∧
    (fetchAndCacheIRC wi idi keyi).1.1 = ([] : List IRCStatus) :=
  ⟨(fetchStats_error_shape ws ids keys e hs).1,
   (fetchIRC_error_shape wi idi keyi f hi).1⟩

/-- Claim C10 witness: a timed-out stats fetch returns the zero payload
and a failed IRC fetch returns the nil list, even though the adapter was
reached. -/
theorem error_returns_zero_payload_witness :
    (fetchAndCacheStats wStatsTimeout "autobrr-1" "autobrr:stats:autobrr-1").1.1 =
      ({} : AutobrrStats) ∧
    (fetchAndCacheIRC wIRCFail "autobrr-1" "autobrr:irc:autobrr-1").1.1 =
      ([] : List IRCStatus) :=
  error_returns_zero_payload wStatsTimeout wIRCFail "autobrr-1" "autobrr-1"
    "autobrr:stats:autobrr-1" "autobrr:irc:autobrr-1"
    .deadlineExceeded (.errorMsg "connection refused") (by decide) (by decide)

/-- Claim C4: a cache-backend failure never propagates to the caller.
Any cache `Get` error is handled identically to a cache miss — the
handlers fall through to the same synchronous fetch whatever the error
value is, and the configuration store is consulted on every such miss;
and when the fetch succeeds but the subsequent cache `Set` fails, the
handler still responds 200 with the fetched value (the `Set`, whose
error is only logged, is still attempted). -/
theorem cache_backend_failure_never_propagates :
    (∀ (w : World AutobrrStats) (e eMiss : GoErr) (id : String),
      GetAutobrrReleaseStats { w with cacheGet := .err e } id =
        GetAutobrrReleaseStats { w with cacheGet := .err eMiss } id) ∧
    (∀ (w : World (List IRCStatus)) (e eMiss : GoErr) (id : String),
      GetAutobrrIRCStatus { w with cacheGet := .err e } id =
        GetAutobrrIRCStatus { w with cacheGet := .err eMiss } id) ∧
    (∀ (w : World AutobrrStats) (e : GoErr) (id : String), id ≠ "" →
      w.cacheGet = .err e →
      Effect.dbGetService id ∈ (GetAutobrrReleaseStats w id).2) ∧
    (∀ (w : World (List IRCStatus)) (e : GoErr) (id : String), id ≠ "" →
      w.cacheGet = .err e →
      Effect.dbGetService id ∈ (GetAutobrrIRCStatus w id).2) ∧
    (∀ (w : World AutobrrStats) (e se : GoErr) (id : String)
        (c : ServiceConfig) (v : AutobrrStats),
      id ≠ "" → w.cacheGet = .err e → w.dbLookup = (some c, none) →
      c.url ≠ "" → w.adapterFetch c.url c.apiKey = (v, none) →
      w.cacheSetResult = some se →
      (GetAutobrrReleaseStats w id).1 = { status := 200, body := .stats v } ∧
      Effect.cacheSet (statsPrefix ++ id) autobrrStatsCacheDuration ∈
        (GetAutobrrReleaseStats w id).2) ∧
    (∀ (w : World (List IRCStatus)) (e se : GoErr) (id : String)
        (c : ServiceConfig) (l : List IRCStatus),
      id ≠ "" → w.cacheGet = .err e → w.dbLookup = (some c, none) →
      c.url ≠ "" → w.adapterFetch c.url c.apiKey = (l, none) →
      w.cacheSetResult = some se →
      (GetAutobrrIRCStatus w id).1 = { status := 200, body := .ircList l } ∧
      Effect.cacheSet (ircPrefix ++ id) autobrrIRCCacheDuration ∈
        (GetAutobrrIRCStatus w id).2) := by
  refine ⟨?_, ?_, ?_, ?_, ?_, ?_⟩
  · intro w e eMiss id
    rcases w with ⟨cg, dbl, af, csr⟩
    by_cases hid : id = ""
    · simp [GetAutobrrReleaseStats, hid]
    · simp [GetAutobrrReleaseStats, fetchAndCacheStats, hid]
  · intro w e eMiss id
    rcases w with ⟨cg, dbl, af, csr⟩
    by_cases hid : id = ""
    · simp [GetAutobrrIRCStatus, hid]
    · simp [GetAutobrrIRCStatus, fetchAndCacheIRC, hid]
  · intro w e id hid hc
    rw [GetStats_miss_effects w id e hid hc]
    exact List.mem_cons_of_mem _ (fetchStats_consults_db w id _)
  · intro w e id hid hc
    rw [GetIRC_miss_effects w id e hid hc]
    exact List.mem_cons_of_mem _ (fetchIRC_consults_db w id _)
  · intro w e se id c v hid hc hdb hu hf hset
    have hr : fetchAndCacheStats w id (statsPrefix ++ id) =
        ((v, none), [.dbGetService id, .getReleaseStats c.url c.apiKey,
          .cacheSet (statsPrefix ++ id) autobrrStatsCacheDuration]) := by
      simp [fetchAndCacheStats, hdb, hu, hf]
    constructor
    · simp [GetAutobrrReleaseStats, hid, hc, hr]
    · simp [GetAutobrrReleaseStats, hid, hc, hr]
  · intro w e se id c l hid hc hdb hu hf hset
    have hr : fetchAndCacheIRC w id (ircPrefix ++ id) =
        ((l, none), [.dbGetService id, .getIRCStatus c.url c.apiKey,
          .cacheSet (ircPrefix ++ id) autobrrIRCCacheDuration]) := by
      simp [fetchAndCacheIRC, hdb, hu, hf]
    constructor
    · simp [GetAutobrrIRCStatus, hid, hc, hr]
    · simp [GetAutobrrIRCStatus, hid, hc, hr]

/-- Claim C4 witness: a backend `Get` failure behaves exactly like a
plain miss, and a failing `Set` after a successful fetch still yields a
200 with the fetched payload. -/
theorem cache_backend_failure_never_propagates_witness :
    (GetAutobrrReleaseStats
        { wStatsOk with cacheGet := .err (.errorMsg "redis: connection refused") }
        "autobrr-1" =
      GetAutobrrReleaseStats
        { wStatsOk with cacheGet := .err (.errorMsg "cache miss") } "autobrr-1") ∧
    ((GetAutobrrReleaseStats wStatsSetFail "autobrr-1").1 =
        { status := 200, body := .stats { totalCount := 3, pushApprovedCount := 2 } } ∧
      Effect.cacheSet (statsPrefix ++ "autobrr-1") autobrrStatsCacheDuration ∈
        (GetAutobrrReleaseStats wStatsSetFail "autobrr-1").2) ∧
    ((GetAutobrrIRCStatus wIRCSetFail "autobrr-1").1 =
        { status := 200, body := .ircList [{ name := "net", healthy := true }] } ∧
      Effect.cacheSet (ircPrefix ++ "autobrr-1") autobrrIRCCacheDuration ∈
        (GetAutobrrIRCStatus wIRCSetFail "autobrr-1").2) :=
  ⟨cache_backend_failure_never_propagates.1 wStatsOk
      (.errorMsg "redis: connection refused") (.errorMsg "cache miss") "autobrr-1",
   cache_backend_failure_never_propagates.2.2.2.2.1 wStatsSetFail
      (.errorMsg "cache miss") (.errorMsg "redis down") "autobrr-1" sampleConfig
      { totalCount := 3, pushApprovedCount := 2 }
      (by decide) rfl rfl (by decide) rfl rfl,
   cache_backend_failure_never_propagates.2.2.2.2.2 wIRCSetFail
      (.errorMsg "cache miss") (.errorMsg "redis down") "autobrr-1" sampleConfig
      [{ name := "net", healthy := true }]
      (by decide) rfl rfl (by decide) rfl rfl⟩

end Dashbrr
